import Mathlib

/-!
Verification development for the trace-eurorack-module repository.

The repository has three Python files under `circuits/`:
* `__init__.py` — path constants and `init_skidl` (environment variables,
  output-directory creation);
* `build.py` — the build orchestrator (`build_circuit`, `main`);
* `power_supply.py` — the declarative power-supply circuit definition,
  ERC invocation, summary printing and netlist generation.

We model filesystem paths as lists of path components (`Path`), the
orchestrator as a trace-producing function over an abstract environment that
answers file-existence queries and supplies subprocess exit codes, and the
skidl circuit graph built by `power_supply.py` as an explicit record of parts
and nets, following the script's statements one by one.
-/

namespace Trace

/-- A filesystem path, as its list of components (Python `pathlib.Path`). -/
abbrev Path := List String

/-- `Path.parent`: drop the last component (`pathlib`'s `.parent`). -/
def parentDir (p : Path) : Path := p.dropLast

/-! ## `circuits/__init__.py` -/

/-- Hard-coded KiCad symbol directory (`KICAD_SYMBOLS` in `__init__.py`). -/
def KICAD_SYMBOLS : String :=
  "/Applications/KiCad/KiCad.app/Contents/SharedSupport/symbols"

/-- Hard-coded KiCad footprint directory (`KICAD_FOOTPRINTS`). -/
def KICAD_FOOTPRINTS : String :=
  "/Applications/KiCad/KiCad.app/Contents/SharedSupport/footprints"

/-- `PROJECT_ROOT = Path(__file__).parent.parent`: the checkout root.
We keep it abstract as a parameter `root` of the definitions below;
`__init__.py` lives at `root ++ ["circuits", "__init__.py"]`. -/
def PROJECT_ROOT (root : Path) : Path := root

/-- `OUTPUT_DIR = PROJECT_ROOT / 'kicad' / 'trace-eurorack-module' / 'netlists'`. -/
def OUTPUT_DIR (root : Path) : Path :=
  PROJECT_ROOT root ++ ["kicad", "trace-eurorack-module", "netlists"]

/-- Process state touched by `init_skidl`: the set of existing directories
and the environment-variable map (as an association list, latest first). -/
structure SysState where
  dirs : List Path
  env : List (String × String)
deriving Repr, DecidableEq

/-- `os.environ[k] = v`: bind `k` to `v`, shadowing any earlier binding. -/
def setEnvVar (k v : String) (e : List (String × String)) :
    List (String × String) :=
  (k, v) :: e.filter (fun p => p.1 ≠ k)

/-- Look an environment variable up. -/
def lookupEnv (k : String) (e : List (String × String)) : Option String :=
  (e.find? (fun p => p.1 = k)).map Prod.snd

/-- All non-empty prefixes of a path: the directory itself and the chain of
ancestors that `mkdir(parents=True)` creates when missing. -/
def pathChain (p : Path) : List Path :=
  (List.range p.length).map (fun n => p.take (n + 1))

/-- Add a directory if it is not present already. -/
def addDir (d : Path) (dirs : List Path) : List Path :=
  if d ∈ dirs then dirs else dirs ++ [d]

/-- `Path.mkdir(parents=True, exist_ok=existOk)`.  With `existOk = false` an
existing target raises `FileExistsError`; with `existOk = true` it never
fails, and a missing target is created together with its ancestors. -/
def mkdir (p : Path) (existOk : Bool) (dirs : List Path) :
    Except String (List Path) :=
  if p ∈ dirs then
    if existOk then .ok dirs else .error "FileExistsError"
  else
    .ok ((pathChain p).foldl (fun acc d => addDir d acc) dirs)

/-- `init_skidl()` from `__init__.py`: set the two KiCad library environment
variables, then ensure `OUTPUT_DIR` exists via
`OUTPUT_DIR.mkdir(parents=True, exist_ok=True)`.  (The trailing
`set_default_tool(KICAD8)` call configures the external library only and
touches neither the filesystem nor the environment.) -/
def init_skidl (root : Path) (st : SysState) : Except String SysState :=
  let env1 := setEnvVar "KICAD8_SYMBOL_DIR" KICAD_SYMBOLS st.env
  let env2 := setEnvVar "KICAD8_FOOTPRINT_DIR" KICAD_FOOTPRINTS env1
  match mkdir (OUTPUT_DIR root) true st.dirs with
  | .error e => .error e
  | .ok dirs2 => .ok { dirs := dirs2, env := env2 }

/-! ## `circuits/build.py` -/

/-- The `'='*60` separator line printed by both scripts. -/
def sep60 : String := String.mk (List.replicate 60 '=')

/-- An observable effect of the orchestrator: a console line or the launch of
a subprocess (script path, working directory).  `subprocess.run` blocks, so in
the trace the launch event carries the completed process; its exit code is
supplied by the environment below. -/
inductive Ev where
  | msg (s : String)
  | subproc (script : Path) (cwd : Path)
deriving Repr, DecidableEq

/-- The world `build.py` runs against: which files exist, and the exit code
each launched script terminates with (as a function of script path and
working directory). -/
structure BuildEnv where
  fileExists : Path → Bool
  exitCode : Path → Path → Nat

/-- `CIRCUITS_DIR = Path(__file__).parent`, where `__file__` is
`root ++ ["circuits", "build.py"]`. -/
def CIRCUITS_DIR (root : Path) : Path := root ++ ["circuits"]

/-- The hardcoded list of circuit modules to build (`CIRCUITS`); the three
other names are commented out in the source. -/
def CIRCUITS : List String := ["power_supply"]

/-- `module_path = CIRCUITS_DIR / f'{name}.py'`. -/
def module_path (root : Path) (name : String) : Path :=
  CIRCUITS_DIR root ++ [name ++ ".py"]

/-- `build_circuit(name)`: returns the success flag and the trace of console
lines and subprocess launches, mirroring `build.py` lines 23-43. -/
def build_circuit (env : BuildEnv) (root : Path) (name : String) :
    Bool × List Ev :=
  let mp := module_path root name
  if env.fileExists mp = false then
    (true, [Ev.msg ("SKIP: " ++ name ++ ".py not found")])
  else
    let cwd := parentDir (CIRCUITS_DIR root)
    let rc := env.exitCode mp cwd
    (rc == 0,
      [Ev.msg sep60, Ev.msg ("Building: " ++ name), Ev.msg sep60,
       Ev.subproc mp cwd] ++
      (if rc != 0 then [Ev.msg ("FAILED: " ++ name)] else []))

/-- The `for circuit in CIRCUITS` loop of `main` with its `success` flag:
every circuit is processed, and the flag is the conjunction of the
per-circuit results. -/
def buildAll (env : BuildEnv) (root : Path) : List String → Bool × List Ev
  | [] => (true, [])
  | c :: cs =>
    let r := build_circuit env root c
    let rest := buildAll env root cs
    (r.1 && rest.1, r.2 ++ rest.2)

/-- `main()` from `build.py`: returns the process exit code (0 on fall-through,
1 via `sys.exit(1)`) and the trace. -/
def main (env : BuildEnv) (root : Path) (circuits : List String) :
    Nat × List Ev :=
  let hdr := [Ev.msg "Trace Eurorack Module - Circuit Build", Ev.msg sep60]
  let r := buildAll env root circuits
  if r.1 then
    (0, hdr ++ r.2 ++
      [Ev.msg sep60, Ev.msg "BUILD COMPLETE - All circuits generated successfully"])
  else
    (1, hdr ++ r.2 ++
      [Ev.msg sep60, Ev.msg "BUILD FAILED - See errors above"])

/-- A step "succeeds or is skipped": either the circuit's file is absent, or
the subprocess (run from the project root) exits with code 0. -/
def stepOK (env : BuildEnv) (root : Path) (name : String) : Bool :=
  !env.fileExists (module_path root name) ||
    env.exitCode (module_path root name) root == 0

/-- The subprocess launches recorded in a trace, in order. -/
def launches (evs : List Ev) : List (Path × Path) :=
  evs.filterMap (fun e =>
    match e with
    | Ev.subproc s c => some (s, c)
    | _ => none)

/-! ## `circuits/power_supply.py` — the skidl circuit graph

The script builds an in-memory circuit graph through skidl's declarative API.
We record the graph explicitly: a pin is a (part reference, pin identifier)
pair, where the identifier is the number or name the script uses to address
it; a net carries its name and attached pins; the circuit accumulates parts
(in instantiation order, skidl assigning references J1, D1, U1, C1, C2, C3,
L1 from the library reference prefixes) and nets, plus the counter for
implicitly created nets, which skidl names "N$1", "N$2", ... -/

/-- A component pin: owning part's reference and the pin identifier used by
the script to address it. -/
structure Pin where
  partRef : String
  pinId : String
deriving Repr, DecidableEq

/-- A component instance: skidl-assigned reference, value, footprint. -/
structure PartRec where
  ref : String
  value : String
  footprint : String
deriving Repr, DecidableEq

/-- A net: its name and the pins attached to it. -/
structure SNet where
  name : String
  pins : List Pin
deriving Repr, DecidableEq

/-- The in-memory circuit graph (skidl's `default_circuit`). -/
structure Circuit where
  parts : List PartRec
  nets : List SNet
  anon : Nat
deriving Repr, DecidableEq

/-- `Net('name')`: create an empty named net. -/
def addNet (name : String) (c : Circuit) : Circuit :=
  { c with nets := c.nets ++ [{ name := name, pins := [] }] }

/-- `Part(lib, sym, value=…, footprint=…)`: create a component instance with
the reference skidl assigns to it. -/
def addPart (ref value footprint : String) (c : Circuit) : Circuit :=
  { c with parts := c.parts ++ [{ ref := ref, value := value, footprint := footprint }] }

/-- `named_net += pins` (or `pin += named_net`): attach pins to the named
net. -/
def attachPins (netName : String) (ps : List Pin) (c : Circuit) : Circuit :=
  { c with nets := c.nets.map (fun n =>
      if n.name = netName then { n with pins := n.pins ++ ps } else n) }

/-- `pin += pin` with both pins unconnected: skidl creates an implicit net
named `N$<k>` joining them. -/
def connectAnon (ps : List Pin) (c : Circuit) : Circuit :=
  { c with
    nets := c.nets ++ [{ name := "N$" ++ toString (c.anon + 1), pins := ps }],
    anon := c.anon + 1 }

/-- The circuit graph built by `power_supply.py` lines 26-107, statement by
statement.  The `drive = POWER` attributes only feed the external ERC and are
not part of the connectivity the claims are about. -/
def powerSupplyCircuit : Circuit :=
  Circuit.mk [] [] 0
  |> addNet "+12V"                    -- plus_12v = Net('+12V')
  |> addNet "-12V"                    -- minus_12v = Net('-12V')
  |> addNet "GND"                     -- gnd = Net('GND')
  |> addNet "+3.3V"                   -- plus_3v3 = Net('+3.3V')
  |> addNet "SW"                      -- sw_node = Net('SW')
  |> addPart "J1" "Eurorack_Power" "Connector_IDC:IDC-Header_2x05_P2.54mm_Vertical"
  |> addPart "D1" "SS14" "Diode_SMD:D_SMA"
  |> addPart "U1" "AP63203WU-7" "Package_TO_SOT_SMD:TSOT-23-6"
  |> addPart "C1" "10uF" "Capacitor_SMD:C_0805_2012Metric"
  |> addPart "C2" "22uF" "Capacitor_SMD:C_0805_2012Metric"
  |> addPart "C3" "100nF" "Capacitor_SMD:C_0402_1005Metric"
  |> addPart "L1" "10uH" "Inductor_SMD:L_1210_3225Metric"
  -- j1[1] += d1['K'] : two unconnected pins, implicit net N$1
  |> connectAnon [Pin.mk "J1" "1", Pin.mk "D1" "K"]
  -- d1['A'] += minus_12v
  |> attachPins "-12V" [Pin.mk "D1" "A"]
  -- plus_12v += j1[9], j1[10], c1[1], u1['IN'], u1['EN']
  |> attachPins "+12V" [Pin.mk "J1" "9", Pin.mk "J1" "10", Pin.mk "C1" "1",
                        Pin.mk "U1" "IN", Pin.mk "U1" "EN"]
  -- gnd += j1[2], j1[3], j1[4], j1[5], j1[6], j1[7], j1[8]
  |> attachPins "GND" [Pin.mk "J1" "2", Pin.mk "J1" "3", Pin.mk "J1" "4",
                       Pin.mk "J1" "5", Pin.mk "J1" "6", Pin.mk "J1" "7",
                       Pin.mk "J1" "8"]
  -- gnd += c1[2], u1['GND'], c2[2]
  |> attachPins "GND" [Pin.mk "C1" "2", Pin.mk "U1" "GND", Pin.mk "C2" "2"]
  -- u1['SW'] += sw_node, c3[1], l1[1]
  |> attachPins "SW" [Pin.mk "U1" "SW", Pin.mk "C3" "1", Pin.mk "L1" "1"]
  -- u1['BST'] += c3[2] : two unconnected pins, implicit net N$2
  |> connectAnon [Pin.mk "U1" "BST", Pin.mk "C3" "2"]
  -- l1[2] += plus_3v3
  |> attachPins "+3.3V" [Pin.mk "L1" "2"]
  -- plus_3v3 += c2[1], u1['FB']
  |> attachPins "+3.3V" [Pin.mk "C2" "1", Pin.mk "U1" "FB"]

/-! ### The summary and netlist stage (`power_supply.py` lines 113-142) -/

/-- The key of `sorted(default_circuit.parts, key=lambda p: p.ref)`. -/
def partLE (a b : PartRec) : Bool := a.ref ≤ b.ref

/-- The key of `sorted(default_circuit.nets, key=lambda n: n.name)`. -/
def netLE (a b : SNet) : Bool := a.name ≤ b.name

/-- Python's `s.startswith(pre)`: `pre` is a prefix of `s`. -/
def pyStartswith (s pre : String) : Bool := pre.data.isPrefixOf s.data

/-- The filter inside the net-summary loop:
`if net.name and not net.name.startswith('N$')`. -/
def keepNet (n : SNet) : Bool := n.name ≠ "" && !(pyStartswith n.name "N$")

/-- The parts the summary prints, in printed order. -/
def partsSummary (c : Circuit) : List PartRec :=
  c.parts.mergeSort partLE

/-- The nets the summary prints, in printed order (the loop iterates the
sorted list and skips the filtered-out entries). -/
def netsSummary (c : Circuit) : List SNet :=
  (c.nets.mergeSort netLE).filter keepNet

/-- The line printed for one part. -/
def partLine (p : PartRec) : String :=
  "  " ++ p.ref ++ ": " ++ p.value ++ " (" ++ p.footprint ++ ")"

/-- The line printed for one net: its name and its connected pins
(`f"{p.part.ref}.{p.num}"` joined by `', '`). -/
def netLine (n : SNet) : String :=
  "  " ++ n.name ++ ": " ++
    String.intercalate ", " (n.pins.map (fun p => p.partRef ++ "." ++ p.pinId))

/-- `netlist_path = OUTPUT_DIR / 'power_supply.net'`. -/
def netlist_path (root : Path) : Path :=
  OUTPUT_DIR root ++ ["power_supply.net"]

/-- An observable effect of running `power_supply.py`: a console line, the
ERC pass (with whatever diagnostics the external checker reports), or a file
write. -/
inductive PsEv where
  | msg (s : String)
  | ercRun (report : List String)
  | fileWrite (path : Path) (content : String)
deriving Repr, DecidableEq

/-- Per-run ambient context.  The clock and randomness source are part of the
model only to express what the script does *not* read; `ercReport` is the
diagnostic output of the external ERC pass, which prints and returns (an
uncaught Python exception is outside this model, as the spec's carve-out
states). -/
structure RunEnv where
  clock : Nat
  rand : Nat → Nat
  ercReport : List String

/-- Running `power_supply.py` (lines 113-142, after the graph is built):
banner, `ERC()`, summary, `generate_netlist(file_=str(netlist_path))`, final
message; the process then ends normally, so its exit code is 0.  The
serializer `ser` stands for the external library's netlist generator.
Modelled from the spec: `generate_netlist` belongs to the opaque EDA library;
per the spec it serializes the in-memory graph with no randomness or
timestamps embedded, so it is a function of the graph alone. -/
def runPowerSupply (root : Path) (ser : Circuit → String) (e : RunEnv) :
    Nat × List PsEv :=
  let c := powerSupplyCircuit
  (0,
    [PsEv.msg sep60, PsEv.msg "Trace Eurorack Module - Power Supply",
     PsEv.msg sep60,
     PsEv.ercRun e.ercReport,
     PsEv.msg sep60, PsEv.msg "Circuit Summary", PsEv.msg sep60,
     PsEv.msg ("Total Parts: " ++ toString c.parts.length),
     PsEv.msg ("Total Nets: " ++ toString c.nets.length),
     PsEv.msg "Parts List:"]
    ++ (partsSummary c).map (fun p => PsEv.msg (partLine p))
    ++ [PsEv.msg "Net Connections:"]
    ++ (netsSummary c).map (fun n => PsEv.msg (netLine n))
    ++ [PsEv.msg sep60, PsEv.msg "Generating netlist...", PsEv.msg sep60,
        PsEv.fileWrite (netlist_path root) (ser c),
        PsEv.msg "Netlist written to"])

/-- The file writes a run performs, in order. -/
def psWrites (evs : List PsEv) : List (Path × String) :=
  evs.filterMap (fun e =>
    match e with
    | PsEv.fileWrite p s => some (p, s)
    | _ => none)

/-! ## Concrete environments for instantiating the theorems -/

/-- Every circuit file exists; the subprocess for circuit "alpha" exits with
code 2, any other with code 0. -/
def alphaFailsEnv : BuildEnv :=
  { fileExists := fun _ => true,
    exitCode := fun p _ => if p = module_path [] "alpha" then 2 else 0 }

/-- No circuit file exists. -/
def noFilesEnv : BuildEnv :=
  { fileExists := fun _ => false, exitCode := fun _ _ => 0 }

/-- Every circuit file exists and every subprocess exits with code 0. -/
def okEnv : BuildEnv :=
  { fileExists := fun _ => true, exitCode := fun _ _ => 0 }

/-! ## Helper lemmas -/

/-- `CIRCUITS_DIR.parent` is the project root (`cwd=CIRCUITS_DIR.parent` in
`build_circuit`). -/
theorem parentDir_CIRCUITS_DIR (root : Path) :
    parentDir (CIRCUITS_DIR root) = root := by
  simp [parentDir, CIRCUITS_DIR]

/-- The success flag `build_circuit` returns is exactly "skipped or exited
zero". -/
theorem build_circuit_fst (env : BuildEnv) (root : Path) (name : String) :
    (build_circuit env root name).1 = stepOK env root name := by
  cases h : env.fileExists (module_path root name) <;>
    simp [build_circuit, stepOK, h, parentDir_CIRCUITS_DIR]

/-- The loop's aggregate flag is true iff every step succeeded or was
skipped. -/
theorem buildAll_fst (env : BuildEnv) (root : Path) (cs : List String) :
    (buildAll env root cs).1 = true ↔ ∀ c ∈ cs, stepOK env root c = true := by
  induction cs with
  | nil => simp [buildAll]
  | cons c cs ih => simp [buildAll, build_circuit_fst, ih]

/-- `build_circuit` launches exactly one subprocess when the file exists
(from the project root) and none otherwise. -/
theorem launches_build_circuit (env : BuildEnv) (root : Path) (name : String) :
    launches (build_circuit env root name).2 =
      if env.fileExists (module_path root name) = true then
        [(module_path root name, root)] else [] := by
  cases h : env.fileExists (module_path root name) <;>
    simp only [build_circuit, h, Bool.false_eq_true, if_false, if_true,
      Bool.true_eq_false, launches, parentDir_CIRCUITS_DIR]
  · rfl
  · cases h2 : env.exitCode (module_path root name) root != 0 <;>
      simp [h2, List.filterMap_append]

/-- The subprocess launches of the whole loop: every configured circuit whose
file exists, in configuration order, regardless of exit codes. -/
theorem launches_buildAll (env : BuildEnv) (root : Path) (cs : List String) :
    launches (buildAll env root cs).2 =
      (cs.filter (fun n => env.fileExists (module_path root n))).map
        (fun n => (module_path root n, root)) := by
  induction cs with
  | nil => simp [buildAll, launches]
  | cons c cs ih =>
    have h1 : launches ((build_circuit env root c).2 ++ (buildAll env root cs).2)
        = launches (build_circuit env root c).2
          ++ launches (buildAll env root cs).2 := by
      simp [launches, List.filterMap_append]
    simp only [buildAll]
    rw [h1, launches_build_circuit, ih, List.filter_cons]
    cases h : env.fileExists (module_path root c) <;> simp [h]

/-- `main`'s exit code, as a function of the aggregate flag. -/
theorem main_fst (env : BuildEnv) (root : Path) (cs : List String) :
    (main env root cs).1 = if (buildAll env root cs).1 then 0 else 1 := by
  cases h : (buildAll env root cs).1 <;> simp [main, h]

/-- The banner lines of `main` launch nothing: `main`'s launches are the
loop's. -/
theorem launches_main (env : BuildEnv) (root : Path) (cs : List String) :
    launches (main env root cs).2 = launches (buildAll env root cs).2 := by
  cases h : (buildAll env root cs).1 <;>
    simp [main, h, launches, List.filterMap_append]

/-- Last element of a trace ending in two fixed events. -/
theorem getLast?_append_two (l : List α) (a b : α) :
    (l ++ [a, b]).getLast? = some b := by
  rw [show l ++ [a, b] = (l ++ [a]) ++ [b] by simp, List.getLast?_concat]

/-! ## Claims about `build.py` -/

/-- Claim C2: the orchestrator's exit status is 0 iff every configured
circuit's subprocess exited 0 or its file was absent; any other exit status
is exactly 1; and on success the final console line is the BUILD COMPLETE
banner. -/
theorem main_exit_iff_all_ok (env : BuildEnv) (root : Path)
    (circuits : List String) :
    ((main env root circuits).1 = 0 ↔
      ∀ c ∈ circuits, stepOK env root c = true) ∧
    ((main env root circuits).1 = 0 ∨ (main env root circuits).1 = 1) ∧
    ((main env root circuits).1 = 0 →
      (main env root circuits).2.getLast? =
        some (Ev.msg "BUILD COMPLETE - All circuits generated successfully")) := by
  have hb := buildAll_fst env root circuits
  cases h : (buildAll env root circuits).1 <;> rw [h] at hb
  · refine ⟨?_, Or.inr (by simp [main_fst, h]), ?_⟩
    · rw [main_fst, h]
      simp only [if_false, Bool.false_eq_true]
      constructor
      · intro h10; exact absurd h10 (by norm_num)
      · intro hall; exact absurd (hb.mpr hall) (by simp)
    · intro h0; rw [main_fst, h] at h0; simp at h0
  · refine ⟨?_, Or.inl (by simp [main_fst, h]), ?_⟩
    · rw [main_fst, h]
      exact iff_of_true rfl (hb.mp rfl)
    · intro _
      simp only [main, h, if_true]
      exact getLast?_append_two _ _ _

/-- Claim C3: if some configured circuit's file exists and its subprocess
exits non-zero, the orchestrator still launches every circuit whose file
exists, in configuration order (no early abort), reports the failing step,
and exits with code 1. -/
theorem main_failure_no_short_circuit (env : BuildEnv) (root : Path)
    (circuits : List String) (c : String) (hc : c ∈ circuits)
    (hex : env.fileExists (module_path root c) = true)
    (hrc : env.exitCode (module_path root c) root ≠ 0) :
    (main env root circuits).1 = 1 ∧
    launches (main env root circuits).2 =
      (circuits.filter (fun n => env.fileExists (module_path root n))).map
        (fun n => (module_path root n, root)) ∧
    Ev.msg ("FAILED: " ++ c) ∈ (main env root circuits).2 := by
  have hstep : stepOK env root c = false := by
    simp [stepOK, hex, hrc]
  have hfail : (buildAll env root circuits).1 = false := by
    cases hba : (buildAll env root circuits).1
    · rfl
    · have := (buildAll_fst env root circuits).mp hba c hc
      rw [hstep] at this
      exact absurd this (by simp)
  refine ⟨by simp [main_fst, hfail], ?_, ?_⟩
  · rw [launches_main, launches_buildAll]
  · have hmem : Ev.msg ("FAILED: " ++ c) ∈ (buildAll env root circuits).2 := by
      clear hfail hstep
      induction circuits with
      | nil => cases hc
      | cons d ds ih =>
        rcases List.mem_cons.mp hc with rfl | hmem
        · have hne : (env.exitCode (module_path root c) root != 0) = true := by
            simp [hrc]
          simp [buildAll, build_circuit, hex, parentDir_CIRCUITS_DIR, hne]
        · simp only [buildAll, List.mem_append]
          exact Or.inr (ih hmem)
    simp only [main, hfail, Bool.false_eq_true, if_false, List.mem_append]
    exact Or.inl (Or.inr hmem)

/-- Claim C4: a missing circuit file makes `build_circuit` print a SKIP line,
launch no subprocess and return success, leaving the aggregate flag of the
loop untouched. -/
theorem build_circuit_skip_missing (env : BuildEnv) (root : Path)
    (name : String)
    (h : env.fileExists (module_path root name) = false) :
    build_circuit env root name
      = (true, [Ev.msg ("SKIP: " ++ name ++ ".py not found")]) ∧
    launches (build_circuit env root name).2 = [] ∧
    ∀ rest, (buildAll env root (name :: rest)).1 = (buildAll env root rest).1 := by
  refine ⟨by simp [build_circuit, h], ?_, ?_⟩
  · rw [launches_build_circuit]; simp [h]
  · intro rest; simp [buildAll, build_circuit, h]

/-- Claim C5: when the circuit file exists, `build_circuit` launches exactly
that file as a subprocess with working directory set to the project root (the
parent of the circuits directory), and the value it returns is a function of
that subprocess's exit code — it returns only after the process completed. -/
theorem build_circuit_runs_subprocess (env : BuildEnv) (root : Path)
    (name : String)
    (h : env.fileExists (module_path root name) = true) :
    parentDir (CIRCUITS_DIR root) = root ∧
    launches (build_circuit env root name).2
      = [(module_path root name, root)] ∧
    (build_circuit env root name).1
      = (env.exitCode (module_path root name) root == 0) := by
  refine ⟨parentDir_CIRCUITS_DIR root, ?_, ?_⟩
  · rw [launches_build_circuit]; simp [h]
  · rw [build_circuit_fst]; simp [stepOK, h]

/-! ## Claims about `__init__.py` -/

theorem mem_addDir_self (d : Path) (l : List Path) : d ∈ addDir d l := by
  unfold addDir
  split
  · assumption
  · simp

theorem mem_addDir_of_mem {a : Path} {l : List Path} (h : a ∈ l) (d : Path) :
    a ∈ addDir d l := by
  unfold addDir
  split
  · exact h
  · simp [h]

theorem mem_foldl_addDir_of_mem_acc {a : Path} (l : List Path) :
    ∀ acc : List Path, a ∈ acc →
      a ∈ l.foldl (fun acc d => addDir d acc) acc := by
  induction l with
  | nil => intro acc h; exact h
  | cons d ds ih =>
    intro acc h
    exact ih (addDir d acc) (mem_addDir_of_mem h d)

theorem mem_foldl_addDir_of_mem {a : Path} (l : List Path) (hl : a ∈ l)
    (acc : List Path) : a ∈ l.foldl (fun acc d => addDir d acc) acc := by
  induction l generalizing acc with
  | nil => cases hl
  | cons d ds ih =>
    rcases List.mem_cons.mp hl with rfl | h2
    · exact mem_foldl_addDir_of_mem_acc ds _ (mem_addDir_self a acc)
    · exact ih h2 _

theorem self_mem_pathChain (p : Path) (h : p ≠ []) : p ∈ pathChain p := by
  have hl : 0 < p.length := List.length_pos.mpr h
  unfold pathChain
  refine List.mem_map.mpr ⟨p.length - 1, List.mem_range.mpr (by omega), ?_⟩
  rw [show p.length - 1 + 1 = p.length by omega, List.take_length]

/-- `mkdir(parents=True, exist_ok=True)` always succeeds, its target exists
afterwards, and running it again on its own result changes nothing. -/
theorem mkdir_existOk (p : Path) (dirs : List Path) (hp : p ≠ []) :
    ∃ d2, mkdir p true dirs = .ok d2 ∧ p ∈ d2 ∧ mkdir p true d2 = .ok d2 := by
  by_cases h : p ∈ dirs
  · exact ⟨dirs, by simp [mkdir, h], h, by simp [mkdir, h]⟩
  · refine ⟨(pathChain p).foldl (fun acc d => addDir d acc) dirs,
      by simp [mkdir, h], ?_, ?_⟩
    · exact mem_foldl_addDir_of_mem _ (self_mem_pathChain p hp) _
    · simp [mkdir, mem_foldl_addDir_of_mem _ (self_mem_pathChain p hp) _]

/-- Claim C9: `init_skidl` always succeeds and establishes the netlist output
directory (creating missing ancestors); calling it again on the state it
produced succeeds and leaves the filesystem unchanged (idempotence); and
every call binds both KiCad library environment variables. -/
theorem init_skidl_spec (root : Path) (st : SysState) :
    ∃ st2 : SysState,
      init_skidl root st = .ok st2 ∧
      OUTPUT_DIR root ∈ st2.dirs ∧
      (∃ st3 : SysState, init_skidl root st2 = .ok st3 ∧ st3.dirs = st2.dirs) ∧
      lookupEnv "KICAD8_SYMBOL_DIR" st2.env = some KICAD_SYMBOLS ∧
      lookupEnv "KICAD8_FOOTPRINT_DIR" st2.env = some KICAD_FOOTPRINTS := by
  have hne : OUTPUT_DIR root ≠ [] := by simp [OUTPUT_DIR, PROJECT_ROOT]
  obtain ⟨d2, hd2, hmem, hidem⟩ := mkdir_existOk (OUTPUT_DIR root) st.dirs hne
  refine ⟨⟨d2, setEnvVar "KICAD8_FOOTPRINT_DIR" KICAD_FOOTPRINTS
      (setEnvVar "KICAD8_SYMBOL_DIR" KICAD_SYMBOLS st.env)⟩, ?_, hmem, ?_, ?_, ?_⟩
  · simp only [init_skidl, hd2]
  · refine ⟨⟨d2, setEnvVar "KICAD8_FOOTPRINT_DIR" KICAD_FOOTPRINTS
        (setEnvVar "KICAD8_SYMBOL_DIR" KICAD_SYMBOLS
          (setEnvVar "KICAD8_FOOTPRINT_DIR" KICAD_FOOTPRINTS
            (setEnvVar "KICAD8_SYMBOL_DIR" KICAD_SYMBOLS st.env)))⟩, ?_, rfl⟩
    simp only [init_skidl, hidem]
  · simp [lookupEnv, setEnvVar, List.find?_cons, List.filter_cons]
  · simp [lookupEnv, setEnvVar, List.find?_cons]

/-! ## Claims about `power_supply.py` -/

/-- A trace made only of console messages performs no file writes. -/
theorem psWrites_map_msg {α : Type} (f : α → String) (l : List α) :
    psWrites (l.map (fun a => PsEv.msg (f a))) = [] := by
  induction l with
  | nil => rfl
  | cons a l ih => exact ih

theorem psWrites_append (l1 l2 : List PsEv) :
    psWrites (l1 ++ l2) = psWrites l1 ++ psWrites l2 := by
  simp [psWrites, List.filterMap_append]

/-- A run of `power_supply.py` performs exactly one file write: the netlist,
serialized from the circuit graph, at `netlist_path`. -/
theorem psWrites_runPowerSupply (root : Path) (ser : Circuit → String)
    (e : RunEnv) :
    psWrites (runPowerSupply root ser e).2
      = [(netlist_path root, ser powerSupplyCircuit)] := by
  simp only [runPowerSupply]
  rw [psWrites_append, psWrites_append, psWrites_append, psWrites_append,
    psWrites_map_msg, psWrites_map_msg]
  rfl

/-- Claim C1: the power-supply script reaches netlist generation and ends
with process exit code 0 for every possible ERC diagnostic report — ERC
violations neither stop the netlist write nor change the exit status. -/
theorem ps_run_writes_netlist_exit_zero (root : Path) (ser : Circuit → String)
    (e : RunEnv) :
    (runPowerSupply root ser e).1 = 0 ∧
    PsEv.fileWrite (netlist_path root) (ser powerSupplyCircuit)
      ∈ (runPowerSupply root ser e).2 := by
  refine ⟨rfl, ?_⟩
  simp [runPowerSupply]

/-- Claim C6: the script writes exactly one netlist file, whose path is the
fixed output directory `PROJECT_ROOT/kicad/trace-eurorack-module/netlists`
joined with the circuit name plus the extension `.net`. -/
theorem ps_single_netlist_fixed_path (root : Path) (ser : Circuit → String)
    (e : RunEnv) :
    psWrites (runPowerSupply root ser e).2
      = [(netlist_path root, ser powerSupplyCircuit)] ∧
    netlist_path root
      = PROJECT_ROOT root ++ ["kicad", "trace-eurorack-module", "netlists"]
          ++ ["power_supply" ++ ".net"] := by
  refine ⟨psWrites_runPowerSupply root ser e, ?_⟩
  have h : ("power_supply" ++ ".net" : String) = "power_supply.net" := by decide
  simp [netlist_path, OUTPUT_DIR, h]

/-- Claim C8: the netlist bytes a run writes do not depend on the per-run
context (clock, randomness source, ERC diagnostics): two runs write
byte-for-byte identical netlist output. -/
theorem ps_netlist_deterministic (root : Path) (ser : Circuit → String)
    (e1 e2 : RunEnv) :
    psWrites (runPowerSupply root ser e1).2
      = psWrites (runPowerSupply root ser e2).2 := by
  rw [psWrites_runPowerSupply, psWrites_runPowerSupply]

theorem partLE_trans : ∀ a b c : PartRec, partLE a b → partLE b c → partLE a c := by
  intro a b c h1 h2
  simp only [partLE, decide_eq_true_eq] at *
  exact le_trans h1 h2

theorem partLE_total : ∀ a b : PartRec, partLE a b || partLE b a := by
  intro a b
  simp only [partLE, Bool.or_eq_true, decide_eq_true_eq]
  exact le_total a.ref b.ref

theorem netLE_trans : ∀ a b c : SNet, netLE a b → netLE b c → netLE a c := by
  intro a b c h1 h2
  simp only [netLE, decide_eq_true_eq] at *
  exact le_trans h1 h2

theorem netLE_total : ∀ a b : SNet, netLE a b || netLE b a := by
  intro a b
  simp only [netLE, Bool.or_eq_true, decide_eq_true_eq]
  exact le_total a.name b.name

/-- Claim C7: the printed parts summary is the list of all parts of the
circuit sorted by reference, and the printed nets summary is exactly the nets
whose name is non-empty and does not start with `N$`, sorted by net name
(each net record carrying its connected pins). -/
theorem summary_sorted_and_filtered (c : Circuit) :
    (partsSummary c).Perm c.parts ∧
    (partsSummary c).Pairwise (fun a b => a.ref ≤ b.ref) ∧
    (netsSummary c).Perm (c.nets.filter keepNet) ∧
    (netsSummary c).Pairwise (fun a b => a.name ≤ b.name) := by
  refine ⟨List.mergeSort_perm c.parts partLE, ?_, ?_, ?_⟩
  · exact (List.sorted_mergeSort partLE_trans partLE_total c.parts).imp
      (fun h => by simpa [partLE] using h)
  · exact (List.mergeSort_perm c.nets netLE).filter keepNet
  · exact ((List.sorted_mergeSort netLE_trans netLE_total c.nets).sublist
      (List.filter_sublist _)).imp (fun h => by simpa [netLE] using h)

/-- Claim C10: in the completed graph, net `-12V` holds exactly one pin, the
protection diode's anode; connector pin 1 and the diode's cathode sit
together on the implicitly created net `N$1`, which the summary filter
excludes. -/
theorem minus12V_and_anon_net :
    (powerSupplyCircuit.nets.filter (fun n => n.name = "-12V")).map SNet.pins
      = [[Pin.mk "D1" "A"]] ∧
    SNet.mk "N$1" [Pin.mk "J1" "1", Pin.mk "D1" "K"] ∈ powerSupplyCircuit.nets ∧
    pyStartswith "N$1" "N$" = true ∧
    SNet.mk "N$1" [Pin.mk "J1" "1", Pin.mk "D1" "K"]
      ∉ netsSummary powerSupplyCircuit := by
  refine ⟨by decide, by decide, by decide, fun hmem => ?_⟩
  have h2 := (List.mem_filter.mp (by simpa [netsSummary] using hmem)).2
  exact absurd h2 (by decide)

/-! ## Witnesses -/

/-- The C3 theorem at a concrete input: circuit "alpha" fails with exit code
2, circuit "beta" is still attempted, and the orchestrator exits 1. -/
theorem main_failure_no_short_circuit_witness :
    ("alpha" ∈ ["alpha", "beta"] ∧
      alphaFailsEnv.fileExists (module_path [] "alpha") = true ∧
      alphaFailsEnv.exitCode (module_path [] "alpha") [] ≠ 0) ∧
    ((main alphaFailsEnv [] ["alpha", "beta"]).1 = 1 ∧
      launches (main alphaFailsEnv [] ["alpha", "beta"]).2 =
        ((["alpha", "beta"].filter
            (fun n => alphaFailsEnv.fileExists (module_path [] n))).map
          (fun n => (module_path [] n, ([] : Path)))) ∧
      Ev.msg ("FAILED: " ++ "alpha")
        ∈ (main alphaFailsEnv [] ["alpha", "beta"]).2) :=
  ⟨⟨by decide, rfl, by decide⟩,
    main_failure_no_short_circuit alphaFailsEnv [] ["alpha", "beta"] "alpha"
      (by decide) rfl (by decide)⟩

/-- The C4 theorem at a concrete input: the file of circuit "ghost" is
absent. -/
theorem build_circuit_skip_missing_witness :
    noFilesEnv.fileExists (module_path [] "ghost") = false ∧
    (build_circuit noFilesEnv [] "ghost"
        = (true, [Ev.msg ("SKIP: " ++ "ghost" ++ ".py not found")]) ∧
      launches (build_circuit noFilesEnv [] "ghost").2 = [] ∧
      ∀ rest, (buildAll noFilesEnv [] ("ghost" :: rest)).1
        = (buildAll noFilesEnv [] rest).1) :=
  ⟨rfl, build_circuit_skip_missing noFilesEnv [] "ghost" rfl⟩

/-- The C5 theorem at a concrete input: the file of circuit "power_supply"
exists and its subprocess exits 0. -/
theorem build_circuit_runs_subprocess_witness :
    okEnv.fileExists (module_path [] "power_supply") = true ∧
    (parentDir (CIRCUITS_DIR []) = [] ∧
      launches (build_circuit okEnv [] "power_supply").2
        = [(module_path [] "power_supply", ([] : Path))] ∧
      (build_circuit okEnv [] "power_supply").1
        = (okEnv.exitCode (module_path [] "power_supply") [] == 0)) :=
  ⟨rfl, build_circuit_runs_subprocess okEnv [] "power_supply" rfl⟩

end Trace
